import Mathlib

/-
Verification development for the digital modulation / channel / demodulation
signal engine of the 5G_6G_ORAN repository.  The Python pipelines embedded here
live in `flask_telecom_server.py` (prefix `fts_`), `app.py` (prefix `app_`),
`enhanced_app.py` (prefix `ea_`), and the simplified duplicated pipeline of
`enhanced_app_v2.py` / `flask_app_with_tooltips.py` (prefix `simple_`).
Machine floats are embedded as exact rationals (ℚ) where the source computes
with exact dyadic values, and as real numbers (ℝ) where trigonometric or
logarithmic functions appear.
-/

/-- Modelled from the spec: the state of numpy's global pseudo-random stream.
The Mersenne Twister itself is not part of this repository; the spec requires
only that the stream be a deterministic function of the seed and of the
position reached in the stream, so the state is the pair (seed, position). -/
structure RngState where
  seed : ℕ
  pos : ℕ
deriving DecidableEq

/-- Modelled from the spec: one raw 32-bit draw of the seeded stream at a given
state.  Any fixed deterministic mixing function is a faithful model; the claims
depend only on determinism in (seed, position). -/
def streamVal (st : RngState) : ℕ :=
  ((st.seed + st.pos * 2654435761) ^ 2 / 65536) % 4294967296

/-- Embeds `np.random.seed(s)`: the global stream state is reset to seed `s`
at position 0, discarding whatever the ambient state was. -/
def npSeed (s : ℕ) (_ : RngState) : RngState := ⟨s, 0⟩

/-- Embeds `np.random.randint(0, 2, n)`: a list of `n` draws in {0, 1} taken
from the stream, advancing the stream position by `n`. -/
def npRandint2 (n : ℕ) (st : RngState) : List ℕ × RngState :=
  ((List.range n).map (fun i => streamVal ⟨st.seed, st.pos + i⟩ % 2),
   ⟨st.seed, st.pos + n⟩)

/-- Modelled from the spec: `np.random.randn(n)` returns `n` draws of the
standard normal variate stream.  The distributional (i.i.d. standard normal)
aspect is not expressible in this embedding; each draw is modelled as a
deterministic real-valued function of the stream state, which is all the
claims about scaling and reproducibility use. -/
noncomputable def npRandn (n : ℕ) (st : RngState) : List ℝ × RngState :=
  ((List.range n).map
     (fun i => ((streamVal ⟨st.seed, st.pos + i⟩ : ℝ) - 2147483648) / 2147483648),
   ⟨st.seed, st.pos + n⟩)

/-- Error taxonomy.  `unboundLocal`, `valueError` and `keyError` model the
Python exceptions that the source can actually raise inside the pipelines
(`UnboundLocalError` for a branch variable read before assignment,
`ValueError` from numpy on a negative array size, `KeyError` on a missing
dict key).  `unsupportedScheme` and `invalidParameter` are modelled from the
spec: they are the structured error values the spec's taxonomy (§7) names,
which no code path in the repository constructs. -/
inductive PyError where
  | unboundLocal (varName : String)
  | valueError (msg : String)
  | keyError
  | unsupportedScheme
  | invalidParameter
deriving DecidableEq

/-- Embeds `np.linspace(a, b, n)` (endpoint included).  For `n = 1` the Lean
convention `x / 0 = 0` makes the formula return `[a]`, exactly numpy's
behaviour, and `n = 0` gives the empty list. -/
noncomputable def linspace (a b : ℝ) (n : ℕ) : List ℝ :=
  (List.range n).map (fun i => a + (b - a) * i / ((n : ℝ) - 1))

/-- Embeds `np.repeat(xs, k)`: every element repeated `k` times in place. -/
def repeatEach {α : Type} (k : ℕ) : List α → List α
  | [] => []
  | x :: rest => List.replicate k x ++ repeatEach k rest

/-- Embeds `bits_padded.reshape(-1, 2)`: consecutive non-overlapping pairs;
a trailing element that does not complete a pair is dropped (the source always
pads to even length first). -/
def toPairs : List ℕ → List (ℕ × ℕ)
  | a :: b :: rest => (a, b) :: toPairs rest
  | _ => []

/-- Embeds `bits_padded.reshape(-1, 4)`: consecutive non-overlapping groups of
four; an incomplete trailing group is dropped (the source pads first). -/
def toQuads : List ℕ → List (ℕ × ℕ × ℕ × ℕ)
  | a :: b :: c :: d :: rest => (a, b, c, d) :: toQuads rest
  | _ => []

/-- Embeds `np.mean(xs)` over the reals (empty list gives 0 by the Lean
convention `x / 0 = 0`; numpy would give nan, a case no claim touches). -/
noncomputable def npMean (xs : List ℝ) : ℝ := xs.sum / xs.length

/-- Embeds `np.var(xs)`: population variance, mean of squared deviations. -/
noncomputable def npVar (xs : List ℝ) : ℝ :=
  (xs.map (fun x => (x - npMean xs) ^ 2)).sum / xs.length

/-- Embeds `noise = noise_power * np.random.randn(len(modulated))` from
`flask_telecom_server.py` line 150, `app.py` line 154 and
`enhanced_app_v2.py` line 386: the raw standard-normal draws `g` are scaled
by the `noise_power` parameter itself (not by its square root). -/
def noise_samples (noise_power : ℝ) (g : List ℝ) : List ℝ :=
  g.map (fun x => noise_power * x)

/-- Embeds `received = modulated + noise`: sample-wise sum. -/
def received_signal (tx noise : List ℝ) : List ℝ :=
  List.zipWith (fun a b => a + b) tx noise

/-- Embeds the QPSK mapper of `flask_telecom_server.py` lines 110-121 and
`enhanced_app.py` lines 221-231: pad the bit list to even length with zeros,
split into consecutive pairs, and map each pair to
`(2*b0 - 1, 2*b1 - 1)` — integer antipodal coordinates with no `1/sqrt 2`
normalization anywhere in the source. -/
def qpsk_iq (bits : List ℕ) : List (ℚ × ℚ) :=
  (toPairs (bits ++ List.replicate (bits.length % 2) 0)).map
    (fun p => (2 * (p.1 : ℚ) - 1, 2 * (p.2 : ℚ) - 1))

/-- Average symbol energy of the QPSK symbol list produced by `qpsk_iq`. -/
def qpskAvgEnergy (bits : List ℕ) : ℚ :=
  (((qpsk_iq bits).map (fun s => s.1 ^ 2 + s.2 ^ 2)).sum) / (qpsk_iq bits).length

/-- Embeds the per-group 16-QAM mapping of `flask_telecom_server.py`
lines 131-138: `val = b0*8 + b1*4 + b2*2 + b3`,
`I = ((val % 4) - 1.5) * 2`, `Q = ((val // 4) - 1.5) * 2`
(a plain binary, not Gray, assignment on each axis). -/
def fts_qam16_point (b : ℕ × ℕ × ℕ × ℕ) : ℚ × ℚ :=
  let val := b.1 * 8 + b.2.1 * 4 + b.2.2.1 * 2 + b.2.2.2
  ((((val % 4 : ℕ) : ℚ) - 1.5) * 2, (((val / 4 : ℕ) : ℚ) - 1.5) * 2)

/-- Embeds the `gray_16qam` dict of `enhanced_app.py` lines 244-250, key for
key and value for value (the dict values are Python ints). -/
def gray_16qam : List ((ℕ × ℕ × ℕ × ℕ) × (ℤ × ℤ)) :=
  [((0,0,0,0), (-3, -3)), ((0,0,0,1), (-3, -1)), ((0,0,1,1), (-3, 1)), ((0,0,1,0), (-3, 3)),
   ((0,1,0,0), (-1, -3)), ((0,1,0,1), (-1, -1)), ((0,1,1,1), (-1, 1)), ((0,1,1,0), (-1, 3)),
   ((1,1,0,0), (1, -3)),  ((1,1,0,1), (1, -1)),  ((1,1,1,1), (1, 1)),  ((1,1,1,0), (1, 3)),
   ((1,0,0,0), (3, -3)),  ((1,0,0,1), (3, -1)),  ((1,0,1,1), (3, 1)),  ((1,0,1,0), (3, 3))]

/-- Embeds `gray_16qam[tuple(group)]`: dict lookup, `none` standing for the
`KeyError` a missing key would raise. -/
def gray_16qam_lookup (b : ℕ × ℕ × ℕ × ℕ) : Option (ℤ × ℤ) :=
  List.lookup b gray_16qam

/-- The sixteen 4-bit groups, i.e. the key set of a 16-QAM table. -/
def qamBitQuads : List (ℕ × ℕ × ℕ × ℕ) :=
  [(0,0,0,0), (0,0,0,1), (0,0,1,0), (0,0,1,1),
   (0,1,0,0), (0,1,0,1), (0,1,1,0), (0,1,1,1),
   (1,0,0,0), (1,0,0,1), (1,0,1,0), (1,0,1,1),
   (1,1,0,0), (1,1,0,1), (1,1,1,0), (1,1,1,1)]

/-- Two constellation points of a square lattice with spacing 2 are Euclidean
nearest neighbors: they agree in one coordinate and differ by one lattice step
(distance 2) in the other.  Stated over any coordinate type so it applies both
to the integer-valued `gray_16qam` table and to the float-valued simplified
mapping. -/
def latticeAdjacent {α : Type} [Sub α] [OfNat α 2] (p q : α × α) : Prop :=
  (p.1 = q.1 ∧ (p.2 - q.2 = 2 ∨ q.2 - p.2 = 2)) ∨
  (p.2 = q.2 ∧ (p.1 - q.1 = 2 ∨ q.1 - p.1 = 2))

instance {α : Type} [Sub α] [OfNat α 2] [DecidableEq α] (p q : α × α) :
    Decidable (latticeAdjacent p q) := by
  unfold latticeAdjacent; infer_instance

/-- Lattice adjacency lifted to possibly missing table entries. -/
def latticeAdjacentOpt {α : Type} [Sub α] [OfNat α 2] :
    Option (α × α) → Option (α × α) → Prop
  | some p, some q => latticeAdjacent p q
  | _, _ => False

instance {α : Type} [Sub α] [OfNat α 2] [DecidableEq α]
    (o1 o2 : Option (α × α)) : Decidable (latticeAdjacentOpt o1 o2) := by
  unfold latticeAdjacentOpt
  rcases o1 with _ | p <;> rcases o2 with _ | q <;> infer_instance

/-- Number of bit positions in which two 4-bit groups differ. -/
def hamming4 (a b : ℕ × ℕ × ℕ × ℕ) : ℕ :=
  (if a.1 = b.1 then 0 else 1) + (if a.2.1 = b.2.1 then 0 else 1) +
  (if a.2.2.1 = b.2.2.1 then 0 else 1) + (if a.2.2.2 = b.2.2.2 then 0 else 1)

/-- Embeds the mutable fields of the module-level `WebTelecomLab` instance of
`flask_telecom_server.py` that `generate_signals` reads and writes
(`self.N`, `self.modulation`, `self.noise_power`); `self.sps = 20`,
`self.fc` and `self.fs` are constants the method never changes. -/
structure LabState where
  N : ℤ
  modulation : String
  noise_power : ℚ
deriving DecidableEq

/-- The defaults set by `WebTelecomLab.reset_parameters`:
`N = 100`, `modulation = 'BPSK'`, `noise_power = 0.1`. -/
def fts_initial : LabState := ⟨100, "BPSK", 1/10⟩

/-- Embeds lines 89-91 of `flask_telecom_server.py`:
`if N: self.N = N`, `if modulation: self.modulation = modulation`,
`if noise_level: self.noise_power = noise_level`.  Python truthiness: `None`,
`0`, `0.0` and the empty string are all falsy, so those argument values leave
the stored field unchanged. -/
def fts_update (st : LabState) (numBits : Option ℤ) (modulation : Option String)
    (noiseLevel : Option ℚ) : LabState :=
  let st1 := match numBits with
    | some n => if n ≠ 0 then { st with N := n } else st
    | none => st
  let st2 := match modulation with
    | some m => if m ≠ "" then { st1 with modulation := m } else st1
    | none => st1
  match noiseLevel with
  | some q => if q ≠ 0 then { st2 with noise_power := q } else st2
  | none => st2

/-- Embeds `10 * np.log10(np.var(modulated) / (np.var(noise) + 1e-10))` from
`flask_telecom_server.py` line 168: the reported SNR in dB, with the literal
`1e-10` added to the noise variance in the denominator. -/
noncomputable def fts_snr_db (vs vn : ℝ) : ℝ :=
  10 * Real.logb 10 (vs / (vn + 1e-10))

/-- Embeds `snr_db = 10 * np.log10(signal_power / noise_power) if
noise_power > 0 else float('inf')` from `flask_app_with_tooltips.py` line 179
and `enhanced_app_v2.py` line 392, where `signal_power = np.mean(signal**2)`
and `noise_power = np.mean(noise**2)` are the realized mean squares.
`float('inf')` is the top element of the extended reals. -/
noncomputable def simple_snr_db (signal_power noise_power : ℝ) : EReal :=
  if 0 < noise_power then (((10 * Real.logb 10 (signal_power / noise_power) : ℝ)) : EReal)
  else ⊤

/-- The fields of `flask_telecom_server.py`'s `generate_signals` result: the
returned dict (`bits`, `modulation`, `samples`, `snr_db`) together with the
arrays stored in `signal_df` that the claims reference (`modulated`, the
realized `noise` draw, and `received`). -/
structure FTSOut where
  bits : List ℕ
  modulation : String
  samples : ℕ
  snr_db : ℝ
  modulated : List ℝ
  noise : List ℝ
  received : List ℝ

/-- Embeds the body of `WebTelecomLab.generate_signals` (lines 94-169) after
the parameter update: time vector, `np.random.seed(42)`, bit draw, carrier,
the BPSK / QPSK / 16-QAM branch dispatch, noise addition and SNR report.
A modulation outside the three handled branches leaves the local `modulated`
unassigned, so Python raises `UnboundLocalError` at
`np.random.randn(len(modulated))` — after the bits were already drawn; a
negative `self.N` makes `np.linspace` raise `ValueError` before the stream is
reseeded.  The returned `RngState` is the global stream state on exit. -/
noncomputable def fts_run (st : LabState) (rng : RngState) :
    RngState × Except PyError FTSOut :=
  if st.N < 0 then (rng, .error (.valueError "Number of samples must be non-negative"))
  else
    let n := st.N.toNat
    let bp := npRandint2 n (npSeed 42 rng)
    let bits := bp.1
    let t := linspace 0 ((st.N : ℝ) * 1e-6) (n * 20)
    let carrier := t.map (fun x => Real.cos (2 * Real.pi * 1e6 * x))
    let branch : Except PyError (List ℝ) :=
      if st.modulation = "BPSK" then
        let symbols := bits.map (fun b => 2 * (b : ℝ) - 1)
        let baseband := repeatEach 20 symbols
        .ok (List.zipWith (fun a b => a * b) (baseband.take carrier.length) carrier)
      else if st.modulation = "QPSK" then
        let pairs := toPairs (bits ++ List.replicate (bits.length % 2) 0)
        let i_baseband := repeatEach 20 (pairs.map (fun p => 2 * (p.1 : ℝ) - 1))
        let q_baseband := repeatEach 20 (pairs.map (fun p => 2 * (p.2 : ℝ) - 1))
        let min_len := min i_baseband.length carrier.length
        let carrier_q := (t.take min_len).map (fun x => -Real.sin (2 * Real.pi * 1e6 * x))
        .ok (List.zipWith (fun a b => a + b)
              (List.zipWith (fun a b => a * b) (i_baseband.take min_len) (carrier.take min_len))
              (List.zipWith (fun a b => a * b) (q_baseband.take min_len) carrier_q))
      else if st.modulation = "16-QAM" then
        let quads := toQuads (bits ++ List.replicate ((4 - bits.length % 4) % 4) 0)
        let pts := quads.map fts_qam16_point
        let i_baseband := repeatEach 20 (pts.map (fun p => ((p.1 : ℚ) : ℝ)))
        let q_baseband := repeatEach 20 (pts.map (fun p => ((p.2 : ℚ) : ℝ)))
        let min_len := min i_baseband.length carrier.length
        let carrier_q := (t.take min_len).map (fun x => -Real.sin (2 * Real.pi * 1e6 * x))
        .ok (List.zipWith (fun a b => a + b)
              (List.zipWith (fun a b => a * b) (i_baseband.take min_len) (carrier.take min_len))
              (List.zipWith (fun a b => a * b) (q_baseband.take min_len) carrier_q))
      else .error (.unboundLocal "modulated")
    match branch with
    | .error e => (bp.2, .error e)
    | .ok modulated =>
      let gp := npRandn modulated.length bp.2
      let noise := noise_samples ((st.noise_power : ℚ) : ℝ) gp.1
      let received := received_signal modulated noise
      let min_samples := min t.length (min (bits.length * 20) modulated.length)
      (gp.2,
       .ok ⟨bits, st.modulation, min_samples,
            fts_snr_db (npVar modulated) (npVar noise), modulated, noise, received⟩)

/-- Embeds a full call `telecom_lab.generate_signals(N, modulation,
noise_level)`: the stored parameters are updated by truthiness, then the body
runs on the updated state; the updated `LabState` persists for the next
request on the same module-level instance. -/
noncomputable def fts_generate (st : LabState) (rng : RngState) (numBits : Option ℤ)
    (modulation : Option String) (noiseLevel : Option ℚ) :
    LabState × (RngState × Except PyError FTSOut) :=
  let st1 := fts_update st numBits modulation noiseLevel
  (st1, fts_run st1 rng)

/-- Embeds `self.bits = np.random.randint(0, 2, self.N)` from `app.py`
line 139 with `self.N = 20`: `CommunicationLab.generate_signal_data` draws its
bits from the ambient global stream without ever calling `np.random.seed`. -/
def app_bits (rng : RngState) : List ℕ × RngState := npRandint2 20 rng

/-- The signal arrays `CommunicationLab.generate_signal_data` stores. -/
structure AppOut where
  bits : List ℕ
  symbols : List ℝ
  tx : List ℝ
  rx : List ℝ
  demod : List ℝ

/-- Embeds `CommunicationLab.generate_signal_data` (`app.py` lines 136-158)
with the parameters of `setup_parameters`: `N = 20`, `sps = 10`, `fc = 2`,
`t = np.arange(0, N, 1/sps)` (200 samples), `noise_power = 0.3`.
No seed is taken: everything is drawn from the ambient stream state. -/
noncomputable def app_generate (rng : RngState) : AppOut × RngState :=
  let bp := app_bits rng
  let bits := bp.1
  let symbols := bits.map (fun b => 2 * (b : ℝ) - 1)
  let baseband := repeatEach 10 symbols
  let t := (List.range (20 * 10)).map (fun i => (i : ℝ) / 10)
  let carrier := t.map (fun x => Real.cos (2 * Real.pi * 2 * x))
  let tx := List.zipWith (fun a b => a * b) baseband carrier
  let gp := npRandn tx.length bp.2
  let noise := noise_samples 0.3 gp.1
  let rx := received_signal tx noise
  let demod := List.zipWith (fun a b => a * b) rx carrier
  (⟨bits, symbols, tx, rx, demod⟩, gp.2)

/-- The per-branch arrays of the simplified pipeline of
`flask_app_with_tooltips.py` / `enhanced_app_v2.py`: symbols, baseband,
carrier and the modulated signal. -/
structure SimpleOut where
  symbols : List ℝ
  baseband : List ℝ
  carrier : List ℝ
  signal : List ℝ

/-- Embeds the branch dispatch of the `generate_signals` route of
`flask_app_with_tooltips.py` (lines 154-170) and `enhanced_app_v2.py`
(lines 367-383): the BPSK, QPSK and 16-QAM branches each repeat the same
four lines (`symbols = 2*bits - 1`, repeat by 10, `carrier =
np.cos(2*np.pi*0.1*t)`, `signal = baseband * carrier`); any other modulation
string leaves `signal` unassigned and `len(signal)` raises
`UnboundLocalError`. -/
noncomputable def simple_generate (modulation : String) (num_bits : ℕ)
    (bits : List ℕ) : Except PyError SimpleOut :=
  let t := linspace 0 (num_bits : ℝ) (num_bits * 10)
  if modulation = "BPSK" then
    let symbols := bits.map (fun b => 2 * (b : ℝ) - 1)
    let baseband := repeatEach 10 symbols
    let carrier := t.map (fun x => Real.cos (2 * Real.pi * 0.1 * x))
    .ok ⟨symbols, baseband, carrier, List.zipWith (fun a b => a * b) baseband carrier⟩
  else if modulation = "QPSK" then
    let symbols := bits.map (fun b => 2 * (b : ℝ) - 1)
    let baseband := repeatEach 10 symbols
    let carrier := t.map (fun x => Real.cos (2 * Real.pi * 0.1 * x))
    .ok ⟨symbols, baseband, carrier, List.zipWith (fun a b => a * b) baseband carrier⟩
  else if modulation = "16-QAM" then
    let symbols := bits.map (fun b => 2 * (b : ℝ) - 1)
    let baseband := repeatEach 10 symbols
    let carrier := t.map (fun x => Real.cos (2 * Real.pi * 0.1 * x))
    .ok ⟨symbols, baseband, carrier, List.zipWith (fun a b => a * b) baseband carrier⟩
  else .error (.unboundLocal "signal")

/-- Embeds `np.random.randint(0, 2, num_bits)` as called by the
`generate_signals` route of `flask_app_with_tooltips.py` (lines 142-148):
`np.random.seed(42)` first, then the draw; a negative `num_bits` makes numpy
raise `ValueError`, while `num_bits = 0` succeeds with an empty array. -/
def tooltips_generate_bits (rng : RngState) (num_bits : ℤ) :
    Except PyError (List ℕ × RngState) :=
  if num_bits < 0 then .error (.valueError "negative dimensions are not allowed")
  else .ok (npRandint2 num_bits.toNat (npSeed 42 rng))

/-- Embeds `ber_bpsk = 0.5 * erfc(np.sqrt(snr_linear))` from
`flask_telecom_server.py` line 292, with the erfc implementation abstracted
as a function parameter. -/
noncomputable def fts_ber_bpsk (erfc : ℝ → ℝ) (snr_linear : ℝ) : ℝ :=
  0.5 * erfc (Real.sqrt snr_linear)

/-- Embeds `ber_qpsk = 0.5 * erfc(np.sqrt(snr_linear))` from
`flask_telecom_server.py` line 293 (same as BPSK for Gray coding). -/
noncomputable def fts_ber_qpsk (erfc : ℝ → ℝ) (snr_linear : ℝ) : ℝ :=
  0.5 * erfc (Real.sqrt snr_linear)

/-- Embeds `ber_16qam = (3/8) * erfc(np.sqrt((4/5) * snr_linear))` from
`flask_telecom_server.py` line 294. -/
noncomputable def fts_ber_16qam (erfc : ℝ → ℝ) (snr_linear : ℝ) : ℝ :=
  (3 / 8) * erfc (Real.sqrt ((4 / 5) * snr_linear))

/-- Embeds `ber_bpsk = 0.5 * np.erfc(np.sqrt(snr_linear))` from
`enhanced_app.py` line 468. -/
noncomputable def ea_ber_bpsk (erfc : ℝ → ℝ) (snr_linear : ℝ) : ℝ :=
  0.5 * erfc (Real.sqrt snr_linear)

/-- Embeds `ber_qpsk = 0.5 * np.erfc(np.sqrt(snr_linear))` from
`enhanced_app.py` line 471. -/
noncomputable def ea_ber_qpsk (erfc : ℝ → ℝ) (snr_linear : ℝ) : ℝ :=
  0.5 * erfc (Real.sqrt snr_linear)

/-- Embeds `ber_16qam = 0.75 * np.erfc(np.sqrt(0.8 * snr_linear))` from
`enhanced_app.py` line 474. -/
noncomputable def ea_ber_16qam (erfc : ℝ → ℝ) (snr_linear : ℝ) : ℝ :=
  0.75 * erfc (Real.sqrt (0.8 * snr_linear))

/-- Embeds `ber_64qam = (7/12) * np.erfc(np.sqrt(snr_linear/42))` from
`enhanced_app.py` line 477. -/
noncomputable def ea_ber_64qam (erfc : ℝ → ℝ) (snr_linear : ℝ) : ℝ :=
  (7 / 12) * erfc (Real.sqrt (snr_linear / 42))

/-- Claim C10: in the simplified pipeline variants
(`enhanced_app_v2.generate_signals` and the `generate_signals` route of
`flask_app_with_tooltips.py`), the generated waveform is independent of the
chosen modulation scheme — for every bit sequence and bit count, the QPSK and
16-QAM branches compute exactly the same symbols (`2*bit - 1`), baseband,
carrier and output signal as the BPSK branch, so the modulation parameter
changes only the reported label. -/
theorem claim10_scheme_independent (num_bits : ℕ) (bits : List ℕ) :
    simple_generate "QPSK" num_bits bits = simple_generate "BPSK" num_bits bits ∧
    simple_generate "16-QAM" num_bits bits = simple_generate "BPSK" num_bits bits :=
  ⟨rfl, rfl⟩

/-- Claim C2 (counterexample): the claim asserts that the analyzer's 16-QAM
BER equals `(3/8) * erfc(sqrt((4/5) * snr_linear))`, but
`enhanced_app.calculate_enhanced_performance_metrics` computes
`0.75 * erfc(sqrt(0.8 * snr_linear))` — twice the claimed coefficient.  At
`snr_linear = 1` and any erfc implementation returning 1 there, the two
values are 0.75 and 0.375. -/
theorem claim2_counterexample :
    ea_ber_16qam (fun _ => 1) 1 ≠ (3 / 8) * (fun _ : ℝ => (1 : ℝ)) (Real.sqrt ((4 / 5) * 1)) := by
  unfold ea_ber_16qam
  norm_num

/-- Claim C2 (amended): for every erfc implementation and every linear SNR,
BPSK and QPSK share the BER `0.5 * erfc(sqrt(snr_linear))` in both analyzer
copies; `flask_telecom_server` computes the 16-QAM BER
`(3/8) * erfc(sqrt((4/5) * snr_linear))` as claimed, while `enhanced_app`
computes exactly twice that value (`0.75 * erfc(sqrt(0.8 * snr_linear))`);
the 64-QAM BER `(7/12) * erfc(sqrt(snr_linear/42))` appears only in
`enhanced_app`. -/
theorem claim2_ber_formulas (f : ℝ → ℝ) (s : ℝ) :
    fts_ber_bpsk f s = fts_ber_qpsk f s ∧
    ea_ber_bpsk f s = fts_ber_bpsk f s ∧
    ea_ber_qpsk f s = fts_ber_bpsk f s ∧
    fts_ber_bpsk f s = 0.5 * f (Real.sqrt s) ∧
    fts_ber_16qam f s = (3 / 8) * f (Real.sqrt ((4 / 5) * s)) ∧
    ea_ber_16qam f s = 2 * fts_ber_16qam f s ∧
    ea_ber_64qam f s = (7 / 12) * f (Real.sqrt (s / 42)) := by
  refine ⟨rfl, rfl, rfl, rfl, rfl, ?_, rfl⟩
  unfold ea_ber_16qam fts_ber_16qam
  have h : (0.8 : ℝ) = 4 / 5 := by norm_num
  rw [h]
  ring

/-- Claim C1 (counterexample): the claim asserts
`rx[i] = tx[i] + sqrt(noise_power) * g[i]`, but the channel stage of
`flask_telecom_server.py` line 150 (likewise `app.py` line 154 and
`enhanced_app_v2.py` line 386) computes `noise = noise_power * g`, scaling by
the noise power itself.  With `noise_power = 4`, `tx = [0]` and the raw draw
`g = [1]`, the code yields `rx = [4]` while the claim predicts
`[0 + sqrt 4 * 1] = [2]`. -/
theorem claim1_counterexample :
    received_signal [0] (noise_samples 4 [1]) ≠ [0 + Real.sqrt 4 * 1] := by
  have h4 : Real.sqrt 4 = 2 := by
    rw [show (4 : ℝ) = 2 ^ 2 by norm_num, Real.sqrt_sq (by norm_num : (0 : ℝ) ≤ 2)]
  simp [received_signal, noise_samples, h4]

/-- Claim C1 (amended): the channel adds noise samples scaled by the
`noise_power` parameter itself (standard deviation `noise_power`, hence
variance `noise_power^2`), sample-wise:
`rx[i] = tx[i] + noise_power * g[i]` for the raw draws `g`.  The i.i.d.
standard-normal distribution of the draws is a property of numpy's generator,
outside this embedding. -/
theorem claim1_noise_scaling (p : ℝ) (g : List ℝ) (tx : List ℝ) (i : ℕ)
    (h1 : i < tx.length) (h2 : i < g.length)
    (h3 : i < (received_signal tx (noise_samples p g)).length) :
    (received_signal tx (noise_samples p g)).get ⟨i, h3⟩ = tx[i] + p * g[i] := by
  simp [received_signal, noise_samples, List.getElem_zipWith]

/-- Witness for Claim C1: at `tx = [3]`, `noise_power = 2`, `g = [5]`, sample
0 of the received signal is `3 + 2 * 5 = 13`. -/
theorem claim1_noise_scaling_witness :
    (received_signal [(3 : ℝ)] (noise_samples 2 [5])).get
      ⟨0, by simp [received_signal, noise_samples]⟩ = (13 : ℝ) := by
  rw [claim1_noise_scaling 2 [5] [3] 0 (by simp) (by simp)
    (by simp [received_signal, noise_samples])]
  norm_num

/-- Claim C5 (counterexample): the claim asserts that a zero-variance noise
draw is reported as +infinity with no finite substitute, but
`flask_telecom_server.py` line 168 computes
`10 * log10(var(tx) / (var(noise) + 1e-10))`: at `var(tx) = 1` and
`var(noise) = 0` the reported SNR is the finite value 100 dB. -/
theorem claim5_counterexample : fts_snr_db 1 0 = 100 := by
  unfold fts_snr_db
  have h : (1 : ℝ) / (0 + 1e-10) = 10 ^ (10 : ℕ) := by norm_num
  rw [h, Real.logb_pow, Real.logb_self_eq_one (by norm_num)]
  norm_num

/-- Claim C5 (amended): the `generate_signals` routes of
`flask_app_with_tooltips.py` and `enhanced_app_v2.py` report +infinity when
the realized noise mean square is zero and `10 * log10(sp/np)` of the
realized mean squares otherwise, while `flask_telecom_server.py` always
reports the finite value `10 * log10(var(tx) / (var(noise) + 1e-10))`; at
zero noise variance this equals `10 * log10(var(tx) * 10^10)` rather than
+infinity. -/
theorem claim5_snr_reporting (sp vn vs : ℝ) :
    simple_snr_db sp 0 = ⊤ ∧
    (0 < vn → simple_snr_db sp vn = (((10 * Real.logb 10 (sp / vn) : ℝ)) : EReal)) ∧
    fts_snr_db vs 0 = 10 * Real.logb 10 (vs * 10 ^ (10 : ℕ)) := by
  refine ⟨by simp [simple_snr_db], fun h => by simp [simple_snr_db, h], ?_⟩
  unfold fts_snr_db
  have h : vs / (0 + 1e-10) = vs * 10 ^ (10 : ℕ) := by
    rw [div_eq_mul_inv]
    norm_num
  rw [h]

/-- Witness for Claim C5: at realized powers `sp = 1`, `vn = 1`, `vs = 1`. -/
theorem claim5_snr_reporting_witness :
    simple_snr_db 1 0 = ⊤ ∧
    simple_snr_db 1 1 = (((10 * Real.logb 10 (1 / 1) : ℝ)) : EReal) ∧
    fts_snr_db 1 0 = 10 * Real.logb 10 (1 * 10 ^ (10 : ℕ)) :=
  ⟨(claim5_snr_reporting 1 1 1).1,
   (claim5_snr_reporting 1 1 1).2.1 (by norm_num),
   (claim5_snr_reporting 1 1 1).2.2⟩

lemma toPairs_mem : ∀ (l : List ℕ) (p : ℕ × ℕ), p ∈ toPairs l → p.1 ∈ l ∧ p.2 ∈ l
  | a :: b :: rest, p, hp => by
      rcases (by simpa [toPairs] using hp : p = (a, b) ∨ p ∈ toPairs rest) with h | h
      · subst h; simp
      · have ih := toPairs_mem rest p h
        exact ⟨List.mem_cons_of_mem _ (List.mem_cons_of_mem _ ih.1),
               List.mem_cons_of_mem _ (List.mem_cons_of_mem _ ih.2)⟩
  | [], p, hp => by simp [toPairs] at hp
  | [a], p, hp => by simp [toPairs] at hp

lemma toPairs_length : ∀ l : List ℕ, (toPairs l).length = l.length / 2
  | a :: b :: rest => by
      simp [toPairs, toPairs_length rest]
      omega
  | [] => by simp [toPairs]
  | [a] => by simp [toPairs]

lemma mem_padded_bits {bits : List ℕ} (hb : ∀ b ∈ bits, b = 0 ∨ b = 1) :
    ∀ b ∈ bits ++ List.replicate (bits.length % 2) 0, b = 0 ∨ b = 1 := by
  intro b hmem
  rcases List.mem_append.1 hmem with h | h
  · exact hb b h
  · exact Or.inl (List.eq_of_mem_replicate h)

/-- Claim C4 (counterexample): the claim asserts that QPSK coordinates are
antipodal values scaled by `1/sqrt 2` so that the average symbol energy is
1.0 to within 1e-9; but the mapper of `flask_telecom_server.py` and
`enhanced_app.py` applies no normalization, and already for the bit pair
`[0, 0]` the symbol is `(-1, -1)` with average energy 2. -/
theorem claim4_counterexample :
    1e-9 < |qpskAvgEnergy [0, 0] - 1| := by
  norm_num [qpskAvgEnergy, qpsk_iq, toPairs]

/-- Claim C4 (amended): for every sequence of 0/1 bits, the QPSK mapper
produces coordinates antipodal in {-1, +1} with no `1/sqrt 2` scaling, every
symbol has energy exactly 2, and for a nonempty bit sequence the average
symbol energy equals 2 (not 1). -/
theorem claim4_qpsk_energy (bits : List ℕ) (hb : ∀ b ∈ bits, b = 0 ∨ b = 1) :
    (∀ s ∈ qpsk_iq bits,
      (s.1 = -1 ∨ s.1 = 1) ∧ (s.2 = -1 ∨ s.2 = 1) ∧ s.1 ^ 2 + s.2 ^ 2 = 2) ∧
    (bits ≠ [] → qpskAvgEnergy bits = 2) := by
  have hpad := mem_padded_bits hb
  have hsym : ∀ s ∈ qpsk_iq bits,
      (s.1 = -1 ∨ s.1 = 1) ∧ (s.2 = -1 ∨ s.2 = 1) ∧ s.1 ^ 2 + s.2 ^ 2 = 2 := by
    intro s hs
    rcases List.mem_map.1 hs with ⟨p, hp, rfl⟩
    have hmem := toPairs_mem _ p hp
    have h1 := hpad p.1 hmem.1
    have h2 := hpad p.2 hmem.2
    rcases h1 with h1 | h1 <;> rcases h2 with h2 | h2 <;>
      simp [h1, h2] <;> norm_num
  refine ⟨hsym, fun hne => ?_⟩
  have hlen : (qpsk_iq bits).length ≠ 0 := by
    have : bits.length ≠ 0 := fun h => hne (List.length_eq_zero.1 h)
    simp [qpsk_iq, toPairs_length]
    omega
  have hsum : ((qpsk_iq bits).map (fun s => s.1 ^ 2 + s.2 ^ 2)).sum =
      ((qpsk_iq bits).map (fun s => s.1 ^ 2 + s.2 ^ 2)).length • (2 : ℚ) := by
    refine List.sum_eq_card_nsmul _ _ ?_
    intro x hx
    rcases List.mem_map.1 hx with ⟨s, hs, rfl⟩
    exact (hsym s hs).2.2
  unfold qpskAvgEnergy
  rw [hsum]
  simp only [List.length_map, nsmul_eq_mul]
  rw [mul_comm, mul_div_assoc, div_self (by exact_mod_cast hlen), mul_one]

/-- Witness for Claim C4: the three bits `[0, 1, 1]` are padded to
`[0, 1, 1, 0]`, mapped to symbols `(-1, 1)` and `(1, -1)`, and the average
symbol energy is 2. -/
theorem claim4_qpsk_energy_witness : qpskAvgEnergy [0, 1, 1] = 2 :=
  (claim4_qpsk_energy [0, 1, 1] (by decide)).2 (by decide)

/-- Claim C3 (counterexample): the claim asserts the Gray property for the
16-QAM mapping, but the simplified mapping of `flask_telecom_server.py`
lines 131-138 is a plain binary assignment: the groups `0001` and `0010` map
to the lattice-adjacent points `(-1, -3)` and `(1, -3)` yet differ in two bit
positions. -/
theorem claim3_counterexample :
    latticeAdjacent (fts_qam16_point (0, 0, 0, 1)) (fts_qam16_point (0, 0, 1, 0)) ∧
    hamming4 (0, 0, 0, 1) (0, 0, 1, 0) = 2 := by
  constructor
  · unfold fts_qam16_point latticeAdjacent
    norm_num
  · decide

/-- Claim C3 (amended): the Gray property holds for the `gray_16qam` table of
`enhanced_app.py`: every pair of 4-bit groups whose table entries are
lattice-adjacent constellation points (Euclidean nearest neighbors) differs
in exactly one bit position.  (The simplified binary mapping of
`flask_telecom_server.py` violates it.) -/
theorem claim3_gray_property :
    ∀ a ∈ qamBitQuads, ∀ b ∈ qamBitQuads,
      latticeAdjacentOpt (gray_16qam_lookup a) (gray_16qam_lookup b) →
      hamming4 a b = 1 := by decide

/-- Witness for Claim C3: the groups `0000` and `0001` map to the adjacent
points `(-3, -3)` and `(-3, -1)` and differ in exactly one bit. -/
theorem claim3_gray_property_witness : hamming4 (0, 0, 0, 0) (0, 0, 0, 1) = 1 :=
  claim3_gray_property (0, 0, 0, 0) (by decide) (0, 0, 0, 1) (by decide) (by decide)

/-- Claim C8 (counterexample): the claim asserts that `n = 0` is rejected
with `InvalidParameter` before any computation, but the route of
`flask_app_with_tooltips.py` happily runs `np.random.randint(0, 2, 0)` and
obtains an empty bit array — a success, not an error of any kind. -/
theorem claim8_counterexample :
    tooltips_generate_bits ⟨0, 0⟩ 0 = .ok ([], ⟨42, 0⟩) := rfl

/-- Claim C8 (amended): no `InvalidParameter` check exists.  In
`flask_app_with_tooltips.py`, a negative bit count makes numpy raise
`ValueError` (surfaced as a generic error), `n = 0` succeeds with an empty
bit sequence, and `n > 0` yields exactly `n` bits each in {0, 1}; in
`flask_telecom_server.py`, a falsy `N` (0 or absent) is silently ignored and
the previously stored bit count is reused. -/
theorem claim8_generate_bits (rng : RngState) (n : ℤ) :
    (n < 0 → tooltips_generate_bits rng n =
      .error (.valueError "negative dimensions are not allowed")) ∧
    (0 ≤ n → ∃ bits rng2, tooltips_generate_bits rng n = .ok (bits, rng2) ∧
      bits.length = n.toNat ∧ ∀ b ∈ bits, b = 0 ∨ b = 1) ∧
    (∀ st : LabState, (fts_update st (some 0) none none).N = st.N) := by
  refine ⟨fun h => by simp [tooltips_generate_bits, h],
          fun h => ?_, fun st => by simp [fts_update]⟩
  refine ⟨(npRandint2 n.toNat (npSeed 42 rng)).1, (npRandint2 n.toNat (npSeed 42 rng)).2,
    by simp [tooltips_generate_bits, not_lt.2 h], by simp [npRandint2], ?_⟩
  intro b hb
  simp [npRandint2] at hb
  obtain ⟨i, _, rfl⟩ := hb
  omega

/-- Witness for Claim C8: `n = -1` raises `ValueError` and `n = 3` returns
three bits in {0, 1}. -/
theorem claim8_generate_bits_witness :
    tooltips_generate_bits ⟨0, 0⟩ (-1) =
      .error (.valueError "negative dimensions are not allowed") ∧
    (∃ bits rng2, tooltips_generate_bits ⟨0, 0⟩ 3 = .ok (bits, rng2) ∧
      bits.length = (3 : ℤ).toNat ∧ ∀ b ∈ bits, b = 0 ∨ b = 1) :=
  ⟨(claim8_generate_bits ⟨0, 0⟩ (-1)).1 (by norm_num),
   (claim8_generate_bits ⟨0, 0⟩ 3).2.1 (by norm_num)⟩

/-- Claim C7 (counterexample): the claim asserts that a modulation identifier
outside the closed set fails with a structured `UnsupportedScheme` before
computation proceeds; but for the identifier `8-PSK`,
`WebTelecomLab.generate_signals` draws the 100 bits first (the stream
position on exit is 100) and then fails with `UnboundLocalError` on the
unassigned local `modulated` — a different, unstructured error. -/
theorem claim7_counterexample :
    fts_run ⟨100, "8-PSK", 1/10⟩ ⟨0, 0⟩ =
      (⟨42, 100⟩, .error (.unboundLocal "modulated")) ∧
    PyError.unboundLocal "modulated" ≠ PyError.unsupportedScheme := by
  exact ⟨rfl, by simp⟩

/-- Claim C7 (amended): every modulation identifier outside
{BPSK, QPSK, 16-QAM} — hence also `64-QAM`, which the claim's closed set
includes — makes `WebTelecomLab.generate_signals` fail with
`UnboundLocalError` on `modulated`, surfaced by the route as a generic
failure, and only after the bit draw has consumed the stream (exit position
`N`); no structured `UnsupportedScheme` error exists anywhere. -/
theorem claim7_unsupported_scheme (st : LabState) (rng : RngState)
    (h0 : 0 ≤ st.N) (h1 : st.modulation ≠ "BPSK") (h2 : st.modulation ≠ "QPSK")
    (h3 : st.modulation ≠ "16-QAM") :
    fts_run st rng = (⟨42, st.N.toNat⟩, .error (.unboundLocal "modulated")) := by
  unfold fts_run
  rw [if_neg (by omega)]
  simp [npRandint2, npSeed, h1, h2, h3]

/-- Witness for Claim C7: the scheme `64-QAM` itself fails with
`UnboundLocalError` after drawing the 100 bits. -/
theorem claim7_unsupported_scheme_witness :
    fts_run ⟨100, "64-QAM", 1/10⟩ ⟨0, 0⟩ =
      (⟨42, (100 : ℤ).toNat⟩, .error (.unboundLocal "modulated")) :=
  claim7_unsupported_scheme ⟨100, "64-QAM", 1/10⟩ ⟨0, 0⟩
    (by norm_num) (by decide) (by decide) (by decide)

/-- Claim C6 (counterexample): the claim asserts reproducibility for the
signal-generation pipelines, but `CommunicationLab.generate_signal_data` in
`app.py` never seeds the generator: two back-to-back invocations (the second
starting from the stream state the first left behind) draw different bit
sequences. -/
theorem claim6_counterexample :
    (app_bits ⟨0, 0⟩).1 ≠ (app_bits (app_bits ⟨0, 0⟩).2).1 := by decide

/-- Claim C6 (amended): `WebTelecomLab.generate_signals` in
`flask_telecom_server.py` is reproducible — because it fixes
`np.random.seed(42)` internally (the seed is not a parameter), two
invocations with the same stored parameters and the same arguments produce
identical results (bits, modulation label, sample count, SNR, modulated
waveform, noise realization and received signal) regardless of the ambient
random-stream state; `app.py`'s `generate_signal_data`, which never seeds,
is not reproducible. -/
theorem claim6_reproducibility (st : LabState) (r1 r2 : RngState)
    (a : Option ℤ) (b : Option String) (c : Option ℚ) :
    (fts_generate st r1 a b c).1 = (fts_generate st r2 a b c).1 ∧
    (fts_generate st r1 a b c).2.2 = (fts_generate st r2 a b c).2.2 := by
  refine ⟨rfl, ?_⟩
  show (fts_run (fts_update st a b c) r1).2 = (fts_run (fts_update st a b c) r2).2
  unfold fts_run
  by_cases h : (fts_update st a b c).N < 0 <;> simp [h, npSeed]

/-- Claim C9 (counterexample): the claim asserts that a second request
depends only on its own parameters, but the module-level `telecom_lab`
instance keeps `self.N`, `self.modulation`, `self.noise_power` between
requests: after a request that set the modulation to QPSK, a follow-up
request passing no parameters returns a QPSK result, while the same
parameterless request on a freshly initialized instance returns the BPSK
default. -/
theorem claim9_counterexample :
    ((fts_generate (fts_generate fts_initial ⟨0, 0⟩ (some 50) (some "QPSK")
        (some (1/10))).1 ⟨0, 0⟩ none none none).2.2).map (fun o => o.modulation) =
      Except.ok "QPSK" ∧
    ((fts_generate fts_initial ⟨0, 0⟩ none none none).2.2).map
        (fun o => o.modulation) = Except.ok "BPSK" := by
  constructor
  · simp [fts_generate, fts_update, fts_initial, fts_run, npSeed, Except.map]
  · simp [fts_generate, fts_update, fts_initial, fts_run, npSeed, Except.map]

/-- Claim C9 (amended): state leaks between runs only through the truthiness
guards: when a request supplies truthy values for all three parameters
(`N ≠ 0`, nonempty modulation string, `noise_level ≠ 0`), the stored state is
fully overwritten and the result is independent of whatever state the
previous requests left; a request with falsy or missing parameters reuses
the previous request's stored values (see the counterexample). -/
theorem claim9_state_isolation (st1 st2 : LabState) (r : RngState) (n : ℤ)
    (m : String) (q : ℚ) (hn : n ≠ 0) (hm : m ≠ "") (hq : q ≠ 0) :
    fts_generate st1 r (some n) (some m) (some q) =
    fts_generate st2 r (some n) (some m) (some q) := by
  unfold fts_generate
  have h : fts_update st1 (some n) (some m) (some q) =
      fts_update st2 (some n) (some m) (some q) := by
    simp [fts_update, hn, hm, hq]
  rw [h]

/-- Witness for Claim C9: a request with all parameters supplied gives the
same result whether the previous request left the defaults or a completely
different stored configuration. -/
theorem claim9_state_isolation_witness :
    fts_generate fts_initial ⟨0, 0⟩ (some 50) (some "QPSK") (some (1/10)) =
    fts_generate ⟨7, "64-QAM", 5⟩ ⟨0, 0⟩ (some 50) (some "QPSK") (some (1/10)) :=
  claim9_state_isolation fts_initial ⟨7, "64-QAM", 5⟩ ⟨0, 0⟩ 50 "QPSK" (1/10)
    (by norm_num) (by decide) (by norm_num)
